import Mathlib

/-!
Shallow embedding of `full_fred/fred_base.py` (class `FredBase`).

Python strings are Lean `String`; `None`-able arguments are `Option`;
the heterogeneous values stored in an `optional_params` dict are the
inductive `PyVal`; a raised Python exception is the `Except.error` side
of an `Except PyExc` result.  The process environment, the filesystem
and the network are passed in explicitly as functions, so every
definition is executable.

Per-instance configuration (`self.__api_key`, `self.__api_key_file`,
the `FRED_API_KEY` environment variable) is the record `FredState`.
The constants `self.__realtime_start`, `self.__realtime_end` and
`self.__url_base` set in `__init__` are top-level definitions.
-/

set_option autoImplicit false

/-- Python exceptions that the embedded code can raise. -/
inductive PyExc where
  | typeError (msg : String)
  | fileNotFoundError (msg : String)
  | attributeError (msg : String)
  | jsonDecodeError
  | nameError (name : String)
  deriving DecidableEq, Repr

/-- A Python value as it may appear in an `optional_params` dictionary:
`None`, a bool, an int, a str, or a list of str. -/
inductive PyVal where
  | pyNone
  | pyBool (b : Bool)
  | pyInt (n : Int)
  | pyStr (s : String)
  | pyList (xs : List String)
  deriving DecidableEq, Repr

/-- The characters Python `str.strip()` removes (whitespace). -/
def isPySpace (c : Char) : Bool :=
  c = ' ' || c = '\t' || c = '\n' || c = '\x0d' || c = '\x0b' || c = '\x0c'

/-- Python `str.strip()`: drop leading and trailing whitespace. -/
def pyStrip (s : String) : String :=
  String.mk (((s.toList.dropWhile isPySpace).reverse.dropWhile isPySpace).reverse)

/-- Python `str.lower()` (ASCII case, which covers every string the code builds). -/
def pyLower (s : String) : String :=
  String.mk (s.toList.map Char.toLower)

/-- Python `str.replace(" ", "+")`: the pattern is a single character, so this
is a character map. -/
def pyReplaceSpace (s : String) : String :=
  String.mk (s.toList.map (fun c => if c = ' ' then '+' else c))

/-- Python `repr` of a list of strings, as produced by `str(list_of_str)`. -/
def pyReprList (xs : List String) : String :=
  "[" ++ String.intercalate ", " (xs.map (fun s => "\x27" ++ s ++ "\x27")) ++ "]"

/-- Python `str()` on a `PyVal`.  Note `str(True) = "True"` with a capital T. -/
def pyStrOf : PyVal → String
  | PyVal.pyNone => "None"
  | PyVal.pyBool true => "True"
  | PyVal.pyBool false => "False"
  | PyVal.pyInt n => toString n
  | PyVal.pyStr s => s
  | PyVal.pyList xs => pyReprList xs

/-- Does `pre` lead the character list `l` (Python prefix test on chars)? -/
def leadsWith : List Char → List Char → Bool
  | [], _ => true
  | _ :: _, [] => false
  | a :: asl, b :: bs => a = b && leadsWith asl bs

/-- Does `needle` occur as a contiguous run inside `hay` (Python `needle in hay`)? -/
def hasSubChars (needle : List Char) : List Char → Bool
  | [] => needle.isEmpty
  | c :: cs => leadsWith needle (c :: cs) || hasSubChars needle cs

/-- Python substring containment `needle in hay` on strings. -/
def hasSub (needle hay : String) : Bool :=
  hasSubChars needle.toList hay.toList

/-- Python `file.readline()` on a file whose whole content is `s`: the
characters up to and including the first newline. -/
def firstLineChars : List Char → List Char
  | [] => []
  | c :: cs => if c = '\n' then [c] else c :: firstLineChars cs

/-- First line of a string, newline included, as `readline` returns it. -/
def firstLine (s : String) : String :=
  String.mk (firstLineChars s.toList)

/-- `self.__url_base`, set in `FredBase.__init__`. -/
def url_base : String := "https://api.stlouisfed.org/fred/"

/-- `self.__realtime_start`, set in `FredBase.__init__`. -/
def realtime_start_default : String := "1776-07-04"

/-- `self.__realtime_end`, set in `FredBase.__init__`. -/
def realtime_end_default : String := "9999-12-31"

/-- The credential-relevant per-instance state of a `FredBase` object:
`self.__api_key`, `self.__api_key_file`, and the value of the
`FRED_API_KEY` environment variable when it is present (`os.environ`
values are strings, never Python `None`). -/
structure FredState where
  api_key : Option String
  api_key_file : Option String
  env : Option String
  deriving DecidableEq, Repr

/-- `FredBase.env_api_key_found`.  The source line
`elif "FRED_API_KEY" in os.environ.keys():` has no preceding `if` in the
repository file, which is a Python syntax slip (a bare `elif` cannot
compile); following the docstring ("Indicate whether a FRED_API_KEY
environment variable is detected") it is read as `if`. -/
def env_api_key_found (st : FredState) : Bool :=
  match st.env with
  | some _ => true
  | none => false

/-- `FredBase._viable_api_key`: returns which credential source to use,
or raises `AttributeError("Cannot locate a FRED API key")` when no
source is available. -/
def viable_api_key (st : FredState) : Except PyExc String :=
  match st.api_key with
  | some _ => Except.ok "attribute"
  | none =>
    match st.api_key_file with
    | some _ => Except.ok "file"
    | none =>
      if env_api_key_found st then Except.ok "env"
      else Except.error (PyExc.attributeError "Cannot locate a FRED API key")

/-- `FredBase.set_api_key_file`: `TypeError` on a `None` argument,
`FileNotFoundError` when the path is not a file, otherwise record the
path and return `True`.  `fs` is the filesystem: path to file content. -/
def set_api_key_file (fs : String → Option String) (st : FredState)
    (api_key_file : Option String) : Except PyExc (FredState × Bool) :=
  match api_key_file with
  | none => Except.error (PyExc.typeError "set_api_key_file missing api_key_file argument")
  | some p =>
    match fs p with
    | some _ => Except.ok ({ st with api_key_file := some p }, true)
    | none => Except.error (PyExc.fileNotFoundError ("Can\x27t find " ++ p ++ ", on path"))

/-- `FredBase._read_api_key_file`: read the first line of the key file,
stripped.  A `FileNotFoundError` at read time is caught and printed and
the method returns `None`; `open(None)` raises `TypeError`, which the
`except FileNotFoundError` clause does not catch. -/
def read_api_key_file (fs : String → Option String) (st : FredState) :
    Except PyExc (Option String) :=
  match st.api_key_file with
  | none => Except.error (PyExc.typeError "expected str, bytes or os.PathLike object, not NoneType")
  | some p =>
    match fs p with
    | some content => Except.ok (some (pyStrip (firstLine content)))
    | none => Except.ok none

/-- `FredBase._make_request_url`: resolve the credential source, build
`url_base + var_url + "&file_type=json&api_key="` and append the key.
In the `env` branch a vanished variable is caught (`KeyError`), printed,
and the method falls through returning `None`; in the `file` branch a
read that produced `None` makes `base + None` raise `TypeError`. -/
def make_request_url (fs : String → Option String) (st : FredState)
    (var_url : String) : Except PyExc (Option String) :=
  match viable_api_key st with
  | Except.error e => Except.error e
  | Except.ok key_to_use =>
    let base := url_base ++ var_url ++ "&file_type=json&api_key="
    if key_to_use = "attribute" then
      match st.api_key with
      | some k => Except.ok (some (base ++ k))
      | none => Except.error (PyExc.typeError "can only concatenate str (not \"NoneType\") to str")
    else if key_to_use = "env" then
      match st.env with
      | some v => Except.ok (some (base ++ v))
      | none => Except.ok none
    else if key_to_use = "file" then
      match read_api_key_file fs st with
      | Except.error e => Except.error e
      | Except.ok (some s) => Except.ok (some (base ++ s))
      | Except.ok none => Except.error (PyExc.typeError "can only concatenate str (not \"NoneType\") to str")
    else Except.ok none

/-- `FredBase._join_strings_by`: `TypeError` when either argument is
`None`; `use_str.join` over a list of strings or over the characters of
a string; joining a non-iterable raises `TypeError`, which is caught and
printed inside the method, after which `return fused_str` raises
`UnboundLocalError` (a `NameError`). -/
def join_strings_by (strings : PyVal) (use_str : Option String) : Except PyExc String :=
  if strings = PyVal.pyNone ∨ use_str = none then
    Except.error (PyExc.typeError "strings and use_str are both required")
  else
    match strings, use_str with
    | PyVal.pyList xs, some j => Except.ok (String.intercalate j xs)
    | PyVal.pyStr s, some j =>
      Except.ok (String.intercalate j (s.toList.map (fun c => String.mk [c])))
    | _, _ => Except.error (PyExc.nameError "fused_str")

/-- One pass of `FredBase._add_optional_params` over the (ordered) entries
of `optional_params`, returning the extended url string together with
the dictionary as it stands after the call (the method mutates
`optional_params[k]` in place).  Entries whose value is `None` are
skipped; the value under the key `&include_release_dates_with_no_data=`
is replaced by `str(value).lower()`; a key containing `tag_names` has
its value joined with `;`, stripped and space-encoded with `+`; then
`k + str(value)` is appended to the url string. -/
def add_optional_params_aux : String → List (String × PyVal) →
    Except PyExc (String × List (String × PyVal))
  | new_url_string, [] => Except.ok (new_url_string, [])
  | new_url_string, (k, v) :: rest =>
    if v = PyVal.pyNone then
      match add_optional_params_aux new_url_string rest with
      | Except.error e => Except.error e
      | Except.ok (u, ps) => Except.ok (u, (k, v) :: ps)
    else
      let v1 := if k = "&include_release_dates_with_no_data=" then
                  PyVal.pyStr (pyLower (pyStrOf v))
                else v
      let step2 : Except PyExc PyVal :=
        if hasSub "tag_names" k then
          match join_strings_by v1 (some ";") with
          | Except.ok s => Except.ok (PyVal.pyStr (pyReplaceSpace (pyStrip s)))
          | Except.error (PyExc.typeError _) => Except.ok v1
          | Except.error e => Except.error e
        else Except.ok v1
      match step2 with
      | Except.error e => Except.error e
      | Except.ok v2 =>
        match add_optional_params_aux (new_url_string ++ k ++ pyStrOf v2) rest with
        | Except.error e => Except.error e
        | Except.ok (u, ps) => Except.ok (u, (k, v2) :: ps)

/-- `FredBase._add_optional_params` on an insertion-ordered parameter table. -/
def add_optional_params (og_url_string : String)
    (optional_params : List (String × PyVal)) :
    Except PyExc (String × List (String × PyVal)) :=
  add_optional_params_aux og_url_string optional_params

/-- `FredBase._get_realtime_date`: the default date is appended only when
the corresponding argument is `None`; a non-`None` argument is cast to
`str` and then discarded, so its parameter is left with an empty value. -/
def get_realtime_date (realtime_start realtime_end : Option String) : String :=
  (match realtime_start with
   | none => "&realtime_start=" ++ realtime_start_default
   | some _ => "&realtime_start=") ++
  (match realtime_end with
   | none => "&realtime_end=" ++ realtime_end_default
   | some _ => "&realtime_end=")

/-- Outcome of `requests.get`: either a raised `RequestException` or a
response carrying a body. -/
inductive HttpResult where
  | failure
  | success (body : String)
  deriving DecidableEq, Repr

/-- `FredBase._get_response`: the `try` block covers only `requests.get`;
a `RequestException` yields `None`, but `response.json()` runs outside
the `try`, so a body that does not decode raises to the caller.  `net`
is the network and `decode` the JSON parser of the requests library. -/
def get_response {Json : Type} (net : String → HttpResult)
    (decode : String → Option Json) (a_url : String) : Except PyExc (Option Json) :=
  match net a_url with
  | HttpResult.failure => Except.ok none
  | HttpResult.success body =>
    match decode body with
    | some j => Except.ok (some j)
    | none => Except.error PyExc.jsonDecodeError

/-- `FredBase._fetch_data`: build the url, get the response, and on a
`None` response print `"Data could not be retrieved, returning None"`
and return `None`.  The second component of the result collects the
diagnostics this method prints.  When `_make_request_url` returned
`None`, `requests.get(None)` raises a `RequestException`
(`MissingSchema`), which `_get_response` catches, giving `None`. -/
def fetch_data {Json : Type} (fs : String → Option String) (st : FredState)
    (net : String → HttpResult) (decode : String → Option Json)
    ( url_prefix : String) : Except PyExc (Option Json × List String) :=
  match make_request_url fs st url_prefix with
  | Except.error e => Except.error e
  | Except.ok ourl =>
    let resp : Except PyExc (Option Json) :=
      match ourl with
      | none => Except.ok none
      | some url => get_response net decode url
    match resp with
    | Except.error e => Except.error e
    | Except.ok none => Except.ok (none, ["Data could not be retrieved, returning None"])
    | Except.ok (some j) => Except.ok (some j, [])

/-- The credential value the source named by `_viable_api_key` yields:
the attribute itself, the environment value, or the (stripped first
line of the) key file. -/
def source_value (fs : String → Option String) (st : FredState) :
    String → Option String
  | "attribute" => st.api_key
  | "env" => st.env
  | "file" =>
    match read_api_key_file fs st with
    | Except.ok r => r
    | Except.error _ => none
  | _ => none

/-! Helper lemmas shared by several theorems. -/

/-- Splitting the fused query-suffix literal of `_make_request_url` into the
`&file_type=json` parameter and the `&api_key=` parameter. -/
theorem append_key_split (x v : String) :
    x ++ "&file_type=json" ++ "&api_key=" ++ v = x ++ "&file_type=json&api_key=" ++ v := by
  rw [String.append_assoc x "&file_type=json" "&api_key="]; rfl

/-- Claim C1: credential resolution selects exactly one source by fixed
precedence.  If `self.__api_key` is set the source is `attribute` (the
explicit value); otherwise if `self.__api_key_file` is set the source is
`file`; otherwise, when the `FRED_API_KEY` environment variable is
present, the source is `env`.  `_viable_api_key` returns a single source
tag, so sources are never merged. -/
theorem claim_C1_precedence (st : FredState) :
    (∀ k, st.api_key = some k → viable_api_key st = Except.ok "attribute") ∧
    (∀ p, st.api_key = none → st.api_key_file = some p → viable_api_key st = Except.ok "file") ∧
    (st.api_key = none → st.api_key_file = none → env_api_key_found st = true →
      viable_api_key st = Except.ok "env") := by
  obtain ⟨ak, af, env⟩ := st
  refine ⟨?_, ?_, ?_⟩
  · rintro k rfl
    rfl
  · rintro p rfl rfl
    rfl
  · rintro rfl rfl henv
    simp only [viable_api_key, henv, if_true]

/-- Witness for C1 at three concrete configurations, one per source. -/
theorem claim_C1_precedence_witness :
    viable_api_key ⟨some "k1", some "f1", some "v1"⟩ = Except.ok "attribute" ∧
    viable_api_key ⟨none, some "f1", some "v1"⟩ = Except.ok "file" ∧
    viable_api_key ⟨none, none, some "v1"⟩ = Except.ok "env" :=
  ⟨(claim_C1_precedence ⟨some "k1", some "f1", some "v1"⟩).1 "k1" rfl,
   (claim_C1_precedence ⟨none, some "f1", some "v1"⟩).2.1 "f1" rfl rfl,
   (claim_C1_precedence ⟨none, none, some "v1"⟩).2.2 rfl rfl rfl⟩

/-- Claim C2: with no explicit key, no key file and no environment
variable, `_viable_api_key` raises (the source raises
`AttributeError("Cannot locate a FRED API key")`, the error the spec
names `MissingCredentialError`) and returns no source.  This is the
behaviour of the intended reading of `env_api_key_found`; in the
repository file that method cannot run at all because its `elif` has no
preceding `if` (a syntax slip). -/
theorem claim_C2_missing_credential :
    viable_api_key ⟨none, none, none⟩ =
      Except.error (PyExc.attributeError "Cannot locate a FRED API key") := rfl

/-- Claim C3: with only the environment variable set, resolution reports
the `env` source and the built request URL ends with the `&api_key=`
parameter carrying exactly the variable's value.  As with C2, this is
the intended reading of `env_api_key_found`, whose bare `elif` is a
syntax slip in the repository file. -/
theorem claim_C3_env_key_in_url (fs : String → Option String) (v frag : String) :
    viable_api_key ⟨none, none, some v⟩ = Except.ok "env" ∧
    make_request_url fs ⟨none, none, some v⟩ frag =
      Except.ok (some (url_base ++ frag ++ "&file_type=json" ++ "&api_key=" ++ v)) := by
  refine ⟨rfl, ?_⟩
  rw [append_key_split (url_base ++ frag) v]
  rfl

/-- Claim C4: whenever `_viable_api_key` names a source and that source
yields a credential value, `_make_request_url` returns exactly the fixed
base url, then the path fragment, then `&file_type=json`, then a final
`&api_key=` parameter carrying the credential — the credential parameter
is last. -/
theorem claim_C4_url_shape (fs : String → Option String) (st : FredState)
    (frag src c : String)
    (hsrc : viable_api_key st = Except.ok src)
    (hval : source_value fs st src = some c) :
    make_request_url fs st frag =
      Except.ok (some (url_base ++ frag ++ "&file_type=json" ++ "&api_key=" ++ c)) := by
  rw [append_key_split (url_base ++ frag) c]
  obtain ⟨ak, af, env⟩ := st
  cases ak with
  | some k =>
    simp only [viable_api_key, Except.ok.injEq] at hsrc
    subst hsrc
    simp only [source_value] at hval
    cases hval
    rfl
  | none =>
    cases af with
    | some p =>
      simp only [viable_api_key, Except.ok.injEq] at hsrc
      subst hsrc
      simp only [source_value, read_api_key_file] at hval
      cases hf : fs p with
      | some content =>
        rw [hf] at hval
        simp only [Option.some.injEq] at hval
        subst hval
        simp only [make_request_url, viable_api_key, read_api_key_file, hf]
        rfl
      | none =>
        rw [hf] at hval
        cases hval
    | none =>
      cases env with
      | some v =>
        simp only [viable_api_key, env_api_key_found, if_true, Except.ok.injEq] at hsrc
        subst hsrc
        simp only [source_value, Option.some.injEq] at hval
        subst hval
        rfl
      | none =>
        simp only [viable_api_key, env_api_key_found, if_false] at hsrc
        cases hsrc

/-- Witness for C4: a concrete state with an explicit key. -/
theorem claim_C4_url_shape_witness :
    make_request_url (fun _ => none) ⟨some "abc123", none, none⟩ "series?series_id=GDP" =
      Except.ok (some (url_base ++ "series?series_id=GDP" ++ "&file_type=json" ++ "&api_key=" ++ "abc123")) :=
  claim_C4_url_shape (fun _ => none) ⟨some "abc123", none, none⟩ "series?series_id=GDP"
    "attribute" "abc123" rfl rfl

/-- Claim C10: `_get_realtime_date` discards a non-`None` argument: the
returned string carries an empty value for that parameter, and the
default date appears only when the argument is `None`. -/
theorem claim_C10_realtime_discard (v w : String) :
    get_realtime_date (some v) (some w) = "&realtime_start=&realtime_end=" ∧
    get_realtime_date none (some w) = "&realtime_start=1776-07-04&realtime_end=" ∧
    get_realtime_date (some v) none = "&realtime_start=&realtime_end=9999-12-31" ∧
    get_realtime_date none none = "&realtime_start=1776-07-04&realtime_end=9999-12-31" :=
  ⟨rfl, rfl, rfl, rfl⟩

/-- A `None`-valued entry is skipped: it contributes nothing to the url
string and its stored value is untouched. -/
theorem aux_cons_none (og k : String) (rest : List (String × PyVal)) :
    add_optional_params_aux og ((k, PyVal.pyNone) :: rest) =
      Except.map (fun p => (p.1, (k, PyVal.pyNone) :: p.2))
        (add_optional_params_aux og rest) := by
  cases h : add_optional_params_aux og rest with
  | error e => simp [add_optional_params_aux, h, Except.map]
  | ok p =>
    obtain ⟨u, ps⟩ := p
    simp [add_optional_params_aux, h, Except.map]

/-- An entry with neither the special include key nor a `tag_names` key
appends `k + str(v)` and keeps its stored value. -/
theorem aux_cons_plain (og k : String) (v : PyVal) (rest : List (String × PyVal))
    (hv : v ≠ PyVal.pyNone)
    (hk : k ≠ "&include_release_dates_with_no_data=")
    (ht : hasSub "tag_names" k = false) :
    add_optional_params_aux og ((k, v) :: rest) =
      Except.map (fun p => (p.1, (k, v) :: p.2))
        (add_optional_params_aux (og ++ k ++ pyStrOf v) rest) := by
  cases h : add_optional_params_aux (og ++ k ++ pyStrOf v) rest with
  | error e => simp [add_optional_params_aux, hv, hk, ht, h, Except.map]
  | ok p =>
    obtain ⟨u, ps⟩ := p
    simp [add_optional_params_aux, hv, hk, ht, h, Except.map]

/-- `str` of a Python string is the string itself. -/
theorem pyStrOf_str (s : String) : pyStrOf (PyVal.pyStr s) = s := rfl

/-- The `&include_release_dates_with_no_data=` entry is overwritten with
`str(v).lower()` and that string is appended after the key. -/
theorem aux_cons_incl (og : String) (v : PyVal) (rest : List (String × PyVal))
    (hv : v ≠ PyVal.pyNone) :
    add_optional_params_aux og (("&include_release_dates_with_no_data=", v) :: rest) =
      Except.map (fun p => (p.1,
          ("&include_release_dates_with_no_data=", PyVal.pyStr (pyLower (pyStrOf v))) :: p.2))
        (add_optional_params_aux
          (og ++ "&include_release_dates_with_no_data=" ++ pyLower (pyStrOf v)) rest) := by
  have hti : hasSub "tag_names" "&include_release_dates_with_no_data=" = false := rfl
  cases h : add_optional_params_aux
      (og ++ "&include_release_dates_with_no_data=" ++ pyLower (pyStrOf v)) rest with
  | error e => simp [add_optional_params_aux, hv, hti, h, Except.map, pyStrOf_str]
  | ok p =>
    obtain ⟨u, ps⟩ := p
    simp [add_optional_params_aux, hv, hti, h, Except.map, pyStrOf_str]

/-- A `tag_names` entry holding a list of strings is overwritten with the
`;`-join, stripped and with spaces turned into `+`, and that string is
appended after the key. -/
theorem aux_cons_tag_list (og k : String) (xs : List String) (rest : List (String × PyVal))
    (hk : k ≠ "&include_release_dates_with_no_data=")
    (ht : hasSub "tag_names" k = true) :
    add_optional_params_aux og ((k, PyVal.pyList xs) :: rest) =
      Except.map (fun p => (p.1,
          (k, PyVal.pyStr (pyReplaceSpace (pyStrip (String.intercalate ";" xs)))) :: p.2))
        (add_optional_params_aux
          (og ++ k ++ pyReplaceSpace (pyStrip (String.intercalate ";" xs))) rest) := by
  cases h : add_optional_params_aux
      (og ++ k ++ pyReplaceSpace (pyStrip (String.intercalate ";" xs))) rest with
  | error e => simp [add_optional_params_aux, hk, ht, h, Except.map, join_strings_by, pyStrOf_str]
  | ok p =>
    obtain ⟨u, ps⟩ := p
    simp [add_optional_params_aux, hk, ht, h, Except.map, join_strings_by, pyStrOf_str]

/-- Claim C5, counterexample to the claim as stated: for the parameter
name `&limit=` the boolean `True` is rendered `True`, not lowercase
`true` — the lowercase rendering is not applied "for every parameter
name". -/
theorem claim_C5_cex :
    add_optional_params "" [("&limit=", PyVal.pyBool true)] =
      Except.ok ("&limit=True", [("&limit=", PyVal.pyBool true)]) ∧
    ("&limit=True" : String) ≠ "&limit=true" := ⟨rfl, by decide⟩

/-- Claim C5 (amended): a `None`-valued parameter contributes nothing to
the built URL, for every name; a boolean value is rendered lowercase
(`True` as `true`) only for the parameter named
`&include_release_dates_with_no_data=`; for any other plain name a
boolean renders as Python `str` does, `True`/`False` capitalised. -/
theorem claim_C5_param_rendering (og k : String) (rest : List (String × PyVal)) (b : Bool) :
    (add_optional_params_aux og ((k, PyVal.pyNone) :: rest) =
       Except.map (fun p => (p.1, (k, PyVal.pyNone) :: p.2))
         (add_optional_params_aux og rest)) ∧
    (add_optional_params_aux og (("&include_release_dates_with_no_data=", PyVal.pyBool b) :: rest) =
       Except.map (fun p => (p.1, ("&include_release_dates_with_no_data=",
           PyVal.pyStr (if b then "true" else "false")) :: p.2))
         (add_optional_params_aux
           (og ++ "&include_release_dates_with_no_data=" ++ (if b then "true" else "false")) rest)) ∧
    (k ≠ "&include_release_dates_with_no_data=" → hasSub "tag_names" k = false →
       add_optional_params_aux og ((k, PyVal.pyBool b) :: rest) =
         Except.map (fun p => (p.1, (k, PyVal.pyBool b) :: p.2))
           (add_optional_params_aux (og ++ k ++ (if b then "True" else "False")) rest)) := by
  refine ⟨aux_cons_none og k rest, ?_, ?_⟩
  · cases b
    · exact aux_cons_incl og (PyVal.pyBool false) rest (by simp)
    · exact aux_cons_incl og (PyVal.pyBool true) rest (by simp)
  · intro hk ht
    cases b
    · exact aux_cons_plain og k (PyVal.pyBool false) rest (by simp) hk ht
    · exact aux_cons_plain og k (PyVal.pyBool true) rest (by simp) hk ht

/-- Witness for C5 at concrete tables: a skipped `None`, the lowercased
include parameter, and a capitalised boolean under another name. -/
theorem claim_C5_param_rendering_witness :
    add_optional_params "" [("&limit=", PyVal.pyNone)] =
      Except.ok ("", [("&limit=", PyVal.pyNone)]) ∧
    add_optional_params "" [("&include_release_dates_with_no_data=", PyVal.pyBool true)] =
      Except.ok ("&include_release_dates_with_no_data=true",
        [("&include_release_dates_with_no_data=", PyVal.pyStr "true")]) ∧
    add_optional_params "" [("&limit=", PyVal.pyBool true)] =
      Except.ok ("&limit=True", [("&limit=", PyVal.pyBool true)]) := by
  have h := claim_C5_param_rendering "" "&limit=" [] true
  exact ⟨h.1.trans rfl, h.2.1.trans rfl, (h.2.2 (by decide) (by decide)).trans rfl⟩

/-- Claim C6, counterexample to the claim as stated: a tab is interior
whitespace but is not replaced with `+`; only spaces are. -/
theorem claim_C6_cex :
    add_optional_params "" [("&tag_names=", PyVal.pyList ["a\tb"])] =
      Except.ok ("&tag_names=a\tb", [("&tag_names=", PyVal.pyStr "a\tb")]) ∧
    ("&tag_names=a\tb" : String) ≠ "&tag_names=a+b" := ⟨rfl, by decide⟩

/-- Claim C6 (amended): for every parameter whose name contains
`tag_names` and whose value is a list of strings, the value is joined
with `;`, stripped of surrounding whitespace, and its interior space
characters are replaced with `+` (other whitespace such as tab is kept);
in particular `["inflation", "usa trade"]` yields
`inflation;usa+trade`. -/
theorem claim_C6_tag_names (og k : String) (xs : List String) (rest : List (String × PyVal))
    (hk : k ≠ "&include_release_dates_with_no_data=")
    (ht : hasSub "tag_names" k = true) :
    add_optional_params_aux og ((k, PyVal.pyList xs) :: rest) =
      Except.map (fun p => (p.1,
          (k, PyVal.pyStr (pyReplaceSpace (pyStrip (String.intercalate ";" xs)))) :: p.2))
        (add_optional_params_aux
          (og ++ k ++ pyReplaceSpace (pyStrip (String.intercalate ";" xs))) rest) ∧
    pyReplaceSpace (pyStrip (String.intercalate ";" ["inflation", "usa trade"])) =
      "inflation;usa+trade" :=
  ⟨aux_cons_tag_list og k xs rest hk ht, rfl⟩

/-- Witness for C6 at the spec's own example value. -/
theorem claim_C6_tag_names_witness :
    add_optional_params "" [("&tag_names=", PyVal.pyList ["inflation", "usa trade"])] =
      Except.ok ("&tag_names=inflation;usa+trade",
        [("&tag_names=", PyVal.pyStr "inflation;usa+trade")]) := by
  have h := claim_C6_tag_names "" "&tag_names=" ["inflation", "usa trade"] []
    (by decide) (by decide)
  exact h.1.trans rfl

/-- Claim C9, counterexample to the claim as stated: the include entry is
rewritten to `str(value).lower()`, so a value already equal to its
transform — here the string `"true"` — leaves the caller's table exactly
as it was, contradicting "the parameter table passed in is not left
unchanged after the call". -/
theorem claim_C9_cex :
    add_optional_params "" [("&include_release_dates_with_no_data=", PyVal.pyStr "true")] =
      Except.ok ("&include_release_dates_with_no_data=true",
        [("&include_release_dates_with_no_data=", PyVal.pyStr "true")]) := rfl

/-- Claim C9 (amended): `_add_optional_params` updates its parameter
table in place: the entry under `&include_release_dates_with_no_data=`
becomes the lowercased string and a `tag_names` entry becomes the
joined, encoded string.  The table is therefore changed whenever the
transformed value differs from the stored one — as for every boolean or
list value — though an entry already equal to its transform is rewritten
to itself. -/
theorem claim_C9_in_place_update (og k : String) (rest : List (String × PyVal))
    (b : Bool) (xs : List String) :
    (add_optional_params_aux og (("&include_release_dates_with_no_data=", PyVal.pyBool b) :: rest) =
       Except.map (fun p => (p.1, ("&include_release_dates_with_no_data=",
           PyVal.pyStr (if b then "true" else "false")) :: p.2))
         (add_optional_params_aux
           (og ++ "&include_release_dates_with_no_data=" ++ (if b then "true" else "false")) rest) ∧
     PyVal.pyStr (if b then "true" else "false") ≠ PyVal.pyBool b) ∧
    (k ≠ "&include_release_dates_with_no_data=" → hasSub "tag_names" k = true →
       add_optional_params_aux og ((k, PyVal.pyList xs) :: rest) =
         Except.map (fun p => (p.1,
             (k, PyVal.pyStr (pyReplaceSpace (pyStrip (String.intercalate ";" xs)))) :: p.2))
           (add_optional_params_aux
             (og ++ k ++ pyReplaceSpace (pyStrip (String.intercalate ";" xs))) rest) ∧
       PyVal.pyStr (pyReplaceSpace (pyStrip (String.intercalate ";" xs))) ≠ PyVal.pyList xs) := by
  constructor
  · constructor
    · cases b
      · exact aux_cons_incl og (PyVal.pyBool false) rest (by simp)
      · exact aux_cons_incl og (PyVal.pyBool true) rest (by simp)
    · simp
  · intro hk ht
    exact ⟨aux_cons_tag_list og k xs rest hk ht, by simp⟩

/-- Witness for C9: both rewrites at concrete tables, with the stored
value visibly changed. -/
theorem claim_C9_in_place_update_witness :
    (add_optional_params "" [("&include_release_dates_with_no_data=", PyVal.pyBool true)] =
       Except.ok ("&include_release_dates_with_no_data=true",
         [("&include_release_dates_with_no_data=", PyVal.pyStr "true")]) ∧
     PyVal.pyStr "true" ≠ PyVal.pyBool true) ∧
    (add_optional_params "" [("&tag_names=", PyVal.pyList ["a b"])] =
       Except.ok ("&tag_names=a+b", [("&tag_names=", PyVal.pyStr "a+b")]) ∧
     PyVal.pyStr "a+b" ≠ PyVal.pyList ["a b"]) := by
  have h := claim_C9_in_place_update "" "&tag_names=" [] true ["a b"]
  have h2 := h.2 (by decide) (by decide)
  exact ⟨⟨h.1.1.trans rfl, h.1.2⟩, ⟨h2.1.trans rfl, h2.2⟩⟩

/-- Claim C7, counterexample to the claim as stated: when the GET
succeeds but the body does not decode as JSON, `response.json()` runs
outside the `try` block of `_get_response`, so the decode error
propagates to the caller instead of an absent return. -/
theorem claim_C7_cex :
    fetch_data (fun _ => none) ⟨some "KEY", none, none⟩
      (fun _ => HttpResult.success "not json") (fun _ => (none : Option Bool)) "series" =
      Except.error PyExc.jsonDecodeError := rfl

/-- Claim C7 (amended): when the network call fails, `_fetch_data`
returns an absent value without raising, and its diagnostic is the fixed
string `"Data could not be retrieved, returning None"`, independent of
the credential; when the response body cannot be decoded as JSON, the
decode error is raised to the caller instead. -/
theorem claim_C7_fetch_failures (Json : Type) (fs : String → Option String)
    (net : String → HttpResult) (decode : String → Option Json) (key frag : String) :
    ((∀ u, net u = HttpResult.failure) →
       fetch_data fs ⟨some key, none, none⟩ net decode frag =
         Except.ok (none, ["Data could not be retrieved, returning None"])) ∧
    (∀ body, (∀ u, net u = HttpResult.success body) → decode body = none →
       fetch_data fs ⟨some key, none, none⟩ net decode frag =
         Except.error PyExc.jsonDecodeError) := by
  constructor
  · intro hnet
    simp [fetch_data, make_request_url, viable_api_key, get_response, hnet]
  · intro body hnet hdec
    simp [fetch_data, make_request_url, viable_api_key, get_response, hnet, hdec]

/-- Witness for C7: a failing network and an undecodable body, at a
concrete state and path fragment. -/
theorem claim_C7_fetch_failures_witness :
    fetch_data (fun _ => none) ⟨some "KEY", none, none⟩ (fun _ => HttpResult.failure)
      (fun _ => (none : Option Bool)) "series" =
      Except.ok (none, ["Data could not be retrieved, returning None"]) ∧
    fetch_data (fun _ => none) ⟨some "KEY", none, none⟩ (fun _ => HttpResult.success "oops")
      (fun _ => (none : Option Bool)) "series" = Except.error PyExc.jsonDecodeError :=
  ⟨(claim_C7_fetch_failures Bool (fun _ => none) (fun _ => HttpResult.failure)
      (fun _ => none) "KEY" "series").1 (fun _ => rfl),
   (claim_C7_fetch_failures Bool (fun _ => none) (fun _ => HttpResult.success "oops")
      (fun _ => none) "KEY" "series").2 "oops" (fun _ => rfl) rfl⟩

/-- Claim C8: `_read_api_key_file` returns the first line of the file at
the configured path, stripped of surrounding whitespace;
`set_api_key_file` raises `FileNotFoundError` (the spec's
`CredentialFileNotFoundError`) when the path has no file at set time;
and a file missing at read time is tolerated — the read returns `None`
and no exception propagates. -/
theorem claim_C8_key_file (fs : String → Option String) (st : FredState) (p content : String) :
    (st.api_key_file = some p → fs p = some content →
       read_api_key_file fs st = Except.ok (some (pyStrip (firstLine content)))) ∧
    (fs p = none →
       set_api_key_file fs st (some p) =
         Except.error (PyExc.fileNotFoundError ("Can\x27t find " ++ p ++ ", on path"))) ∧
    (st.api_key_file = some p → fs p = none → read_api_key_file fs st = Except.ok none) := by
  refine ⟨?_, ?_, ?_⟩
  · intro h1 h2
    simp [read_api_key_file, h1, h2]
  · intro h
    simp [set_api_key_file, h]
  · intro h1 h2
    simp [read_api_key_file, h1, h2]

/-- Witness for C8: a concrete filesystem in which `key.txt` holds
`"  abc  \nsecond"` (first line `abc` after stripping), `missing.txt`
does not exist at set time, and `gone.txt` is absent at read time. -/
theorem claim_C8_key_file_witness :
    read_api_key_file (fun q => if q = "key.txt" then some "  abc  \nsecond" else none)
        ⟨none, some "key.txt", none⟩ = Except.ok (some "abc") ∧
    set_api_key_file (fun q => if q = "key.txt" then some "  abc  \nsecond" else none)
        ⟨none, some "key.txt", none⟩ (some "missing.txt") =
      Except.error (PyExc.fileNotFoundError "Can\x27t find missing.txt, on path") ∧
    read_api_key_file (fun _ => none) ⟨none, some "gone.txt", none⟩ = Except.ok none := by
  have h1 := claim_C8_key_file (fun q => if q = "key.txt" then some "  abc  \nsecond" else none)
    ⟨none, some "key.txt", none⟩ "key.txt" "  abc  \nsecond"
  have h2 := claim_C8_key_file (fun q => if q = "key.txt" then some "  abc  \nsecond" else none)
    ⟨none, some "key.txt", none⟩ "missing.txt" "unused"
  have h3 := claim_C8_key_file (fun _ => none) ⟨none, some "gone.txt", none⟩ "gone.txt" "unused"
  exact ⟨(h1.1 rfl rfl).trans rfl, (h2.2.1 rfl).trans rfl, h3.2.2 rfl rfl⟩
